import Mathlib

/-!
# PlaceDiscoverAgent — verification of the tool layer and workflow invariants

A shallow embedding of `app/agent/tools.py`, `app/agent/state.py` and
`app/config.py`.  Python dictionaries are modelled as ordered association
lists of `PyVal`s, Python numbers as rationals (the code's float division is
modelled by exact rational division), and Python exceptions as `Except`
values threaded through each function body.  External effects (HTTP calls,
LLM completions, regex matching, HTML text extraction, JSON parsing) enter
each embedded function as explicit outcome or oracle parameters, so that the
embedded functions are pure and total while the branch structure of the
source is preserved.
-/

namespace PlaceDiscover

/-- A Python value, as used by the tool layer: strings, numbers (rationals
standing for Python ints/floats), booleans, `None`, lists and dicts.
Dicts are insertion-ordered association lists, as in CPython. -/
inductive PyVal where
  | vstr (s : String)
  | vnum (q : ℚ)
  | vbool (b : Bool)
  | vnone
  | vlist (items : List PyVal)
  | vdict (fields : List (String × PyVal))
deriving Repr

/-- A Python dict: an insertion-ordered association list. -/
abbrev PyDict := List (String × PyVal)

/-- `d[k]` / `d.get(k)` lookup: the first binding of `k`, if any. -/
def pyDictGet (d : PyDict) (k : String) : Option PyVal :=
  (d.find? (fun kv => kv.1 == k)).map (fun kv => kv.2)

/-- `d.get(k, default)`: lookup with a default. -/
def pyGetD (d : PyDict) (k : String) (dflt : PyVal) : PyVal :=
  (pyDictGet d k).getD dflt

/-- `k in d` for a dict. -/
def pyHasKey (d : PyDict) (k : String) : Bool :=
  (pyDictGet d k).isSome

/-- Python truthiness of a value: empty strings, zero, `False`, `None`,
empty lists and empty dicts are falsy. -/
def pyTruthy : PyVal → Bool
  | .vstr s => !(s == "")
  | .vnum q => !(q == 0)
  | .vbool b => b
  | .vnone => false
  | .vlist l => !l.isEmpty
  | .vdict d => !d.isEmpty

/-- Python `a or b`: `a` when truthy, else `b`. -/
def pyOr (a b : PyVal) : PyVal :=
  if pyTruthy a then a else b

/-- Key lookup on an arbitrary value: only dicts have keys. -/
def pyValHasKey (v : PyVal) (k : String) : Bool :=
  match v with
  | .vdict d => pyHasKey d k
  | _ => false

/-- A value is a structured error record when it is a dict with an
`error` field. -/
def isErrorRecord (v : PyVal) : Bool :=
  pyValHasKey v "error"

/-- Outcome of an external call made from inside a `try` block: it either
produced a value or raised an exception with a message. -/
inductive PyOutcome (α : Type) where
  | ok (a : α)
  | exn (e : String)
deriving Repr

/-!
## `app/config.py` — `Settings`

The module-level `settings = Settings()` singleton is modelled by passing a
`Settings` value into each embedded tool explicitly; the fields and their
defaults are those of `app/config.py`.
-/

/-- The `Settings` record of `app/config.py`.  `groq_api_key` and
`serp_api_key` have no default in the source; all other defaults below are
the source's. -/
structure Settings where
  groq_api_key : String
  groq_api_key_2 : String := ""
  serp_api_key : String
  tavily_api_key : String := ""
  webscraping_ai_api_key : String := ""
  environment : String := "development"
  database_path : String := "./data/checkpoints.db"
  log_level : String := "INFO"
  llm_model : String := "llama-3.3-70b-versatile"
  llm_temperature : ℚ := 7/10
  max_tokens : ℤ := 2048
  max_iterations : ℤ := 3
  recursion_limit : ℤ := 50
  serp_api_url : String := "http://api.serpstack.com/search"
deriving Repr

/-!
## `compare_prices` (tools.py lines 313–363)

The loop state mirrors the four mutable collections of the source:
`analysis["within_budget"]`, `analysis["above_budget"]`,
`analysis["no_price_info"]` and the local list `prices`.
-/

/-- The mutable state of the `compare_prices` loop. -/
structure CPAcc where
  within : List PyVal
  above : List PyVal
  noinfo : List PyVal
  prices : List PyVal
deriving Repr

/-- Python `price <= budget` where `budget` is a number: defined for
numbers and booleans (Python `bool` is an `int`), a `TypeError` otherwise. -/
def pyLeNum (price : PyVal) (b : ℚ) : Except String Bool :=
  match price with
  | .vnum q => .ok (q ≤ b)
  | .vbool bb => .ok ((if bb then (1 : ℚ) else 0) ≤ b)
  | _ => .error "TypeError: comparison not supported"

/-- `sum(prices)`: numbers and booleans add up, anything else raises. -/
def pySum : List PyVal → Except String ℚ
  | [] => .ok 0
  | .vnum q :: rest => (pySum rest).map (fun s => q + s)
  | .vbool bb :: rest => (pySum rest).map (fun s => (if bb then 1 else 0) + s)
  | _ => .error "TypeError: unsupported operand type for +"

/-- `place["pricing_info"].get("monthly") or place["pricing_info"].get("base")`:
the price `compare_prices` extracts from a pricing dict. -/
def placePrice (pid : PyDict) : PyVal :=
  pyOr ((pyDictGet pid "monthly").getD .vnone)
       ((pyDictGet pid "base").getD .vnone)

/-- The `{"name": ..., "price": ...}` entry appended to
`within_budget`/`above_budget`. -/
def cpEntry (nm price : PyVal) : PyVal :=
  .vdict [("name", nm), ("price", price)]

/-- One iteration of the `for place in places` loop of `compare_prices`.
Follows the source's evaluation order: the `pricing_info` membership and
truthiness test, price extraction via `get("monthly") or get("base")`, the
truthiness tests of `price` and `budget`, the comparison `price <= budget`
(which may raise a `TypeError`), and only then `place["name"]` (which may
raise a `KeyError`).  `prices.append(price)` happens before the budget
test, so the price is collected whether or not the place is classified. -/
def cpStep (budget : Option ℚ) (acc : CPAcc) (place : PyDict) :
    Except String CPAcc :=
  match pyDictGet place "pricing_info" with
  | some pi =>
    if pyTruthy pi then
      match pi with
      | .vdict pid =>
        if pyTruthy (placePrice pid) then
          match budget with
          | some b =>
            if b == 0 then .ok { acc with prices := acc.prices ++ [placePrice pid] }
            else
              match pyLeNum (placePrice pid) b with
              | .error e => .error e
              | .ok le =>
                match pyDictGet place "name" with
                | none => .error "KeyError: name"
                | some nm =>
                  if le then
                    .ok { acc with
                          within := acc.within ++ [cpEntry nm (placePrice pid)],
                          prices := acc.prices ++ [placePrice pid] }
                  else
                    .ok { acc with
                          above := acc.above ++ [cpEntry nm (placePrice pid)],
                          prices := acc.prices ++ [placePrice pid] }
          | none => .ok { acc with prices := acc.prices ++ [placePrice pid] }
        else .ok acc
      | _ => .error "AttributeError: get"
    else
      .ok { acc with noinfo := acc.noinfo ++ [pyGetD place "name" (.vstr "Unknown")] }
  | none =>
    .ok { acc with noinfo := acc.noinfo ++ [pyGetD place "name" (.vstr "Unknown")] }

/-- The `for place in places` loop of `compare_prices`. -/
def comparePricesCore (budget : Option ℚ) (acc : CPAcc) :
    List PyDict → Except String CPAcc
  | [] => .ok acc
  | p :: rest =>
    match cpStep budget acc p with
    | .ok acc2 => comparePricesCore budget acc2 rest
    | .error e => .error e

/-- `compare_prices(places, budget)` (tools.py lines 313–363): builds the
analysis dict, computing `average_price = sum(prices)/len(prices)` when any
price was collected, and returns `{"error": str(e)}` when the body raises. -/
def comparePrices (places : List PyDict) (budget : Option ℚ) : PyVal :=
  match comparePricesCore budget ⟨[], [], [], []⟩ places with
  | .error e => .vdict [("error", .vstr e)]
  | .ok acc =>
    match pySum acc.prices with
    | .error e => .vdict [("error", .vstr e)]
    | .ok s =>
      let avg : PyVal :=
        if acc.prices.isEmpty then .vnone
        else .vnum (s / (acc.prices.length : ℚ))
      .vdict [("within_budget", .vlist acc.within),
              ("above_budget", .vlist acc.above),
              ("no_price_info", .vlist acc.noinfo),
              ("average_price", avg)]

/-- The numeric value of a Python number (booleans count as 0/1, as in
Python arithmetic). -/
def pyNumVal : PyVal → Option ℚ
  | .vnum q => some q
  | .vbool b => some (if b then 1 else 0)
  | _ => none

/-- The name recorded for an entry of an output collection of
`compare_prices`: `within_budget`/`above_budget` entries are
`{"name": ..., "price": ...}` dicts, `no_price_info` entries are the bare
name values. -/
def entryName : PyVal → PyVal
  | .vdict d => pyGetD d "name" .vnone
  | v => v

/-- The `price` recorded in a `within_budget`/`above_budget` entry. -/
def entryPrice : PyVal → PyVal
  | .vdict d => pyGetD d "price" .vnone
  | v => v

/-- All names appearing across the three output collections of a
`compare_prices` loop state, with multiplicity. -/
def outputNames (acc : CPAcc) : List PyVal :=
  acc.within.map entryName ++ acc.above.map entryName ++ acc.noinfo

/-- The name a given input place contributes to one of the three output
collections of `compare_prices`, if any: a place whose `pricing_info` is
absent or falsy contributes to `no_price_info`; a place with a truthy
extracted price contributes to `within_budget`/`above_budget` only when the
budget is present and nonzero; otherwise the place contributes nothing. -/
def contribName (budget : Option ℚ) (place : PyDict) : Option PyVal :=
  match pyDictGet place "pricing_info" with
  | some pi =>
    if pyTruthy pi then
      match pi with
      | .vdict pid =>
        if pyTruthy (placePrice pid) then
          match budget with
          | some b => if b == 0 then none else pyDictGet place "name"
          | none => none
        else none
      | _ => none
    else some (pyGetD place "name" (.vstr "Unknown"))
  | none => some (pyGetD place "name" (.vstr "Unknown"))

/-- The price `compare_prices` collects into its `prices` list for a given
input place, if any: `pricing_info["monthly"] or pricing_info["base"]`
when `pricing_info` is a truthy dict and the result is truthy. -/
def extractPrice (place : PyDict) : Option PyVal :=
  match pyDictGet place "pricing_info" with
  | some pi =>
    if pyTruthy pi then
      match pi with
      | .vdict pid =>
        if pyTruthy (placePrice pid) then some (placePrice pid) else none
      | _ => none
    else none
  | none => none

theorem entryName_cpEntry (nm price : PyVal) :
    entryName (cpEntry nm price) = nm := by
  simp [entryName, cpEntry, pyGetD, pyDictGet]

theorem cpStep_outputNames (budget : Option ℚ) (acc : CPAcc) (p : PyDict)
    (acc2 : CPAcc) (h : cpStep budget acc p = .ok acc2) :
    (outputNames acc2 : Multiset PyVal)
      = (outputNames acc : Multiset PyVal) + ↑((contribName budget p).toList) := by
  rw [Multiset.coe_add, Multiset.coe_eq_coe]
  unfold cpStep at h
  unfold contribName
  repeat' split at h
  all_goals cases h
  all_goals simp_all [outputNames, entryName_cpEntry, List.append_assoc]
  all_goals first
    | exact List.Perm.append_left _
        (List.Perm.trans (List.Perm.symm List.perm_middle)
          (List.Perm.append_left _ (List.Perm.symm (List.perm_append_singleton _ _))))
    | exact List.Perm.append_left _ (List.Perm.append_left _
        (List.Perm.symm (List.perm_append_singleton _ _)))


theorem entryPrice_cpEntry (nm price : PyVal) :
    entryPrice (cpEntry nm price) = price := by
  simp [entryPrice, cpEntry, pyGetD, pyDictGet]

theorem comparePricesCore_outputNames (budget : Option ℚ) (places : List PyDict) :
    ∀ (acc0 acc : CPAcc), comparePricesCore budget acc0 places = .ok acc →
    (outputNames acc : Multiset PyVal)
      = ↑(outputNames acc0) + ↑(places.filterMap (contribName budget)) := by
  induction places with
  | nil =>
    intro acc0 acc h
    cases h
    simp
  | cons p rest ih =>
    intro acc0 acc h
    unfold comparePricesCore at h
    cases hstep : cpStep budget acc0 p with
    | error e => rw [hstep] at h; cases h
    | ok acc1 =>
      rw [hstep] at h
      have h1 := cpStep_outputNames budget acc0 p acc1 hstep
      have h2 := ih acc1 acc h
      rw [h2, h1]
      cases hc : contribName budget p <;>
        simp [hc, List.filterMap_cons, Multiset.singleton_add, add_assoc]

theorem pyLeNum_ok_true (price : PyVal) (b : ℚ) (h : pyLeNum price b = .ok true) :
    ∃ q, pyNumVal price = some q ∧ q ≤ b := by
  unfold pyLeNum at h
  cases price <;> simp_all [pyNumVal]

theorem pyLeNum_ok_false (price : PyVal) (b : ℚ) (h : pyLeNum price b = .ok false) :
    ∃ q, pyNumVal price = some q ∧ b < q := by
  unfold pyLeNum at h
  cases price <;> simp_all [pyNumVal, not_le]

theorem cpStep_bounds (b : ℚ) (acc : CPAcc) (p : PyDict) (acc2 : CPAcc)
    (h : cpStep (some b) acc p = .ok acc2)
    (hw : ∀ e ∈ acc.within, ∃ q, pyNumVal (entryPrice e) = some q ∧ q ≤ b)
    (ha : ∀ e ∈ acc.above, ∃ q, pyNumVal (entryPrice e) = some q ∧ b < q) :
    (∀ e ∈ acc2.within, ∃ q, pyNumVal (entryPrice e) = some q ∧ q ≤ b) ∧
    (∀ e ∈ acc2.above, ∃ q, pyNumVal (entryPrice e) = some q ∧ b < q) := by
  unfold cpStep at h
  repeat' split at h
  all_goals cases h
  all_goals refine ⟨?_, ?_⟩ <;> intro e he <;> simp_all
  all_goals rcases he with he | he
  · exact hw e he
  · subst he
    rw [entryPrice_cpEntry]
    exact pyLeNum_ok_true _ _ (by simp_all)
  · exact ha e he
  · subst he
    rw [entryPrice_cpEntry]
    exact pyLeNum_ok_false _ _ (by simp_all)

theorem comparePricesCore_bounds (b : ℚ) (places : List PyDict) :
    ∀ (acc0 acc : CPAcc), comparePricesCore (some b) acc0 places = .ok acc →
    (∀ e ∈ acc0.within, ∃ q, pyNumVal (entryPrice e) = some q ∧ q ≤ b) →
    (∀ e ∈ acc0.above, ∃ q, pyNumVal (entryPrice e) = some q ∧ b < q) →
    (∀ e ∈ acc.within, ∃ q, pyNumVal (entryPrice e) = some q ∧ q ≤ b) ∧
    (∀ e ∈ acc.above, ∃ q, pyNumVal (entryPrice e) = some q ∧ b < q) := by
  induction places with
  | nil =>
    intro acc0 acc h hw ha
    cases h
    exact ⟨hw, ha⟩
  | cons p rest ih =>
    intro acc0 acc h hw ha
    unfold comparePricesCore at h
    cases hstep : cpStep (some b) acc0 p with
    | error e => rw [hstep] at h; cases h
    | ok acc1 =>
      rw [hstep] at h
      have h1 := cpStep_bounds b acc0 p acc1 hstep hw ha
      exact ih acc1 acc h h1.1 h1.2

theorem cpStep_prices (budget : Option ℚ) (acc : CPAcc) (p : PyDict)
    (acc2 : CPAcc) (h : cpStep budget acc p = .ok acc2) :
    acc2.prices = acc.prices ++ (extractPrice p).toList := by
  unfold cpStep at h
  unfold extractPrice
  repeat' split at h
  all_goals cases h
  all_goals simp_all

theorem comparePricesCore_prices (budget : Option ℚ) (places : List PyDict) :
    ∀ (acc0 acc : CPAcc), comparePricesCore budget acc0 places = .ok acc →
    acc.prices = acc0.prices ++ places.filterMap extractPrice := by
  induction places with
  | nil =>
    intro acc0 acc h
    cases h
    simp
  | cons p rest ih =>
    intro acc0 acc h
    unfold comparePricesCore at h
    cases hstep : cpStep budget acc0 p with
    | error e => rw [hstep] at h; cases h
    | ok acc1 =>
      rw [hstep] at h
      rw [ih acc1 acc h, cpStep_prices budget acc0 p acc1 hstep]
      cases hc : extractPrice p <;> simp [hc, List.filterMap_cons]


/-- Field lookup on a value that should be a dict (Python `v["k"]` via
`.get`): `none` when the value is not a dict or lacks the key. -/
def pyValGet (v : PyVal) (k : String) : Option PyVal :=
  match v with
  | .vdict d => pyDictGet d k
  | _ => none

/-- Modelled from the claim's words (not the source), for comparison with
`comparePrices`: the price of a place that has pricing info is its
`monthly` price when present, otherwise its `base` price. -/
def specPriceOfPlace (place : PyDict) : Option ℚ :=
  match pyDictGet place "pricing_info" with
  | some (.vdict pid) =>
    match pyDictGet pid "monthly" with
    | some v => pyNumVal v
    | none =>
      match pyDictGet pid "base" with
      | some v => pyNumVal v
      | none => none
  | _ => none

/-- Modelled from the claim's words (not the source): the exact arithmetic
mean of the spec-extracted prices, `none` when no place yields one. -/
def specAveragePrice (places : List PyDict) : Option ℚ :=
  if (places.filterMap specPriceOfPlace).isEmpty then none
  else some ((places.filterMap specPriceOfPlace).sum
              / ((places.filterMap specPriceOfPlace).length : ℚ))

/-- **C1** (amended): on a successful run of `compare_prices`, the names in
the three output collections are, with multiplicity, exactly the names of
the input places that `contribName` classifies: a place without truthy
pricing info lands in `no_price_info`; a place with a truthy extracted
price lands in `within_budget` or `above_budget` only when the budget is
non-null and nonzero; all other places (truthy price with null/zero budget,
or truthy pricing info without a truthy price) appear in no collection. -/
theorem compare_prices_partition (places : List PyDict) (budget : Option ℚ)
    (acc : CPAcc)
    (h : comparePricesCore budget ⟨[], [], [], []⟩ places = .ok acc) :
    (outputNames acc : Multiset PyVal)
      = ↑(places.filterMap (contribName budget)) := by
  simpa [outputNames] using
    comparePricesCore_outputNames budget places ⟨[], [], [], []⟩ acc h

/-- Witness for `compare_prices_partition`: one place without pricing info
under budget 50 is classified once, into `no_price_info`. -/
theorem compare_prices_partition_witness :
    comparePricesCore (some 50) ⟨[], [], [], []⟩ [[("name", PyVal.vstr "A")]]
      = .ok ⟨[], [], [PyVal.vstr "A"], []⟩ ∧
    (outputNames ⟨[], [], [PyVal.vstr "A"], []⟩ : Multiset PyVal)
      = ↑([[("name", PyVal.vstr "A")]].filterMap (contribName (some 50))) :=
  ⟨rfl, compare_prices_partition _ _ _ rfl⟩

/-- Counterexample to C1 as stated: with a null budget, the place `"A"`,
which has pricing info (`monthly = 100`), is placed in none of the three
output collections — the run succeeds, the price is even collected into the
average, but all three collections are empty while the input has one
place. -/
theorem compare_prices_partition_cex :
    [([("name", PyVal.vstr "A"),
       ("pricing_info", PyVal.vdict [("monthly", PyVal.vnum 100)])] : PyDict)].length = 1 ∧
    comparePricesCore none ⟨[], [], [], []⟩
      [[("name", PyVal.vstr "A"),
        ("pricing_info", PyVal.vdict [("monthly", PyVal.vnum 100)])]]
      = .ok ⟨[], [], [], [PyVal.vnum 100]⟩ ∧
    outputNames ⟨[], [], [], [PyVal.vnum 100]⟩ = [] :=
  ⟨rfl, rfl, rfl⟩

/-- **C9** (confirmed): on a successful run with a non-null budget, every
`within_budget` entry has its extracted price `<= budget` and every
`above_budget` entry has its extracted price `> budget`. -/
theorem compare_prices_within_above_correct (places : List PyDict) (b : ℚ)
    (acc : CPAcc)
    (h : comparePricesCore (some b) ⟨[], [], [], []⟩ places = .ok acc) :
    (∀ e ∈ acc.within, ∃ q, pyNumVal (entryPrice e) = some q ∧ q ≤ b) ∧
    (∀ e ∈ acc.above, ∃ q, pyNumVal (entryPrice e) = some q ∧ b < q) :=
  comparePricesCore_bounds b places ⟨[], [], [], []⟩ acc h
    (by simp) (by simp)

/-- Witness for `compare_prices_within_above_correct`: budget 50 splits a
30-priced place into `within_budget` and an 80-priced place into
`above_budget`, with the stated bounds. -/
theorem compare_prices_within_above_correct_witness :
    comparePricesCore (some 50) ⟨[], [], [], []⟩
      [[("name", PyVal.vstr "A"),
        ("pricing_info", PyVal.vdict [("monthly", PyVal.vnum 30)])],
       [("name", PyVal.vstr "B"),
        ("pricing_info", PyVal.vdict [("monthly", PyVal.vnum 80)])]]
      = .ok ⟨[cpEntry (PyVal.vstr "A") (PyVal.vnum 30)],
             [cpEntry (PyVal.vstr "B") (PyVal.vnum 80)], [],
             [PyVal.vnum 30, PyVal.vnum 80]⟩ ∧
    ((∀ e ∈ [cpEntry (PyVal.vstr "A") (PyVal.vnum 30)],
        ∃ q, pyNumVal (entryPrice e) = some q ∧ q ≤ (50 : ℚ)) ∧
     (∀ e ∈ [cpEntry (PyVal.vstr "B") (PyVal.vnum 80)],
        ∃ q, pyNumVal (entryPrice e) = some q ∧ (50 : ℚ) < q)) :=
  ⟨rfl, compare_prices_within_above_correct
    [[("name", PyVal.vstr "A"),
      ("pricing_info", PyVal.vdict [("monthly", PyVal.vnum 30)])],
     [("name", PyVal.vstr "B"),
      ("pricing_info", PyVal.vdict [("monthly", PyVal.vnum 80)])]]
    50
    ⟨[cpEntry (PyVal.vstr "A") (PyVal.vnum 30)],
     [cpEntry (PyVal.vstr "B") (PyVal.vnum 80)], [],
     [PyVal.vnum 30, PyVal.vnum 80]⟩ rfl⟩

/-- **C10** (amended): on a successful run, the collected prices are
exactly the truthy values of `pricing_info["monthly"] or
pricing_info["base"]` over the input places — independent of the
budget — and `average_price` is their exact mean, `None` exactly when no
place yields a truthy price.  (A monthly price of 0 is falsy and falls
through to `base`; a falsy extracted price is skipped entirely.) -/
theorem compare_prices_average (places : List PyDict) (budget : Option ℚ)
    (acc : CPAcc) (q : ℚ)
    (h : comparePricesCore budget ⟨[], [], [], []⟩ places = .ok acc)
    (hs : pySum acc.prices = .ok q) :
    acc.prices = places.filterMap extractPrice ∧
    comparePrices places budget =
      .vdict [("within_budget", .vlist acc.within),
              ("above_budget", .vlist acc.above),
              ("no_price_info", .vlist acc.noinfo),
              ("average_price",
                 if (places.filterMap extractPrice).isEmpty then .vnone
                 else .vnum (q / ((places.filterMap extractPrice).length : ℚ)))] := by
  have hp : acc.prices = places.filterMap extractPrice := by
    simpa using comparePricesCore_prices budget places ⟨[], [], [], []⟩ acc h
  refine ⟨hp, ?_⟩
  simp only [comparePrices, h]
  rw [hs]
  simp only [hp]

/-- Witness for `compare_prices_average`: a single 30-priced place under a
null budget has `prices = [30]` and average 30. -/
theorem compare_prices_average_witness :
    comparePricesCore none ⟨[], [], [], []⟩
      [[("name", PyVal.vstr "A"),
        ("pricing_info", PyVal.vdict [("monthly", PyVal.vnum 30)])]]
      = .ok ⟨[], [], [], [PyVal.vnum 30]⟩ ∧
    pySum [PyVal.vnum 30] = .ok 30 ∧
    (([PyVal.vnum 30] : List PyVal)
        = [[("name", PyVal.vstr "A"),
            ("pricing_info", PyVal.vdict [("monthly", PyVal.vnum 30)])]].filterMap
              extractPrice ∧
     comparePrices
        [[("name", PyVal.vstr "A"),
          ("pricing_info", PyVal.vdict [("monthly", PyVal.vnum 30)])]] none =
      .vdict [("within_budget", .vlist []),
              ("above_budget", .vlist []),
              ("no_price_info", .vlist []),
              ("average_price",
                 if ([[("name", PyVal.vstr "A"),
                       ("pricing_info", PyVal.vdict [("monthly", PyVal.vnum 30)])]].filterMap
                        extractPrice).isEmpty then .vnone
                 else .vnum ((30 : ℚ)
                   / (([[("name", PyVal.vstr "A"),
                         ("pricing_info", PyVal.vdict [("monthly", PyVal.vnum 30)])]].filterMap
                          extractPrice).length : ℚ)))]) :=
  ⟨rfl, by simp [pySum, Except.map], compare_prices_average
    [[("name", PyVal.vstr "A"),
      ("pricing_info", PyVal.vdict [("monthly", PyVal.vnum 30)])]] none
    ⟨[], [], [], [PyVal.vnum 30]⟩ 30 rfl (by simp [pySum, Except.map])⟩

/-- Counterexample to C10 as stated: for a place with
`pricing_info = {"monthly": 0, "base": 5}` the code's `get("monthly") or
get("base")` falls through the falsy monthly price to the base price and
reports an average of 5, while the claim's extraction rule ("monthly when
present, otherwise base") yields an average of 0. -/
theorem compare_prices_average_cex :
    pyValGet (comparePrices
        [[("name", PyVal.vstr "A"),
          ("pricing_info", PyVal.vdict [("monthly", PyVal.vnum 0),
                                        ("base", PyVal.vnum 5)])]] none)
        "average_price" = some (PyVal.vnum 5) ∧
    specAveragePrice
        [[("name", PyVal.vstr "A"),
          ("pricing_info", PyVal.vdict [("monthly", PyVal.vnum 0),
                                        ("base", PyVal.vnum 5)])]] = some 0 ∧
    PyVal.vnum 5 ≠ PyVal.vnum 0 := by
  refine ⟨?_, ?_, by simp⟩
  · simp [comparePrices, comparePricesCore, cpStep, placePrice, pyOr, pyTruthy,
      pyDictGet, pyGetD, pySum, pyValGet, cpEntry, extractPrice, Except.map]
  · simp [specAveragePrice, specPriceOfPlace, pyNumVal, pyDictGet]


/-!
## The workflow controller (`app/agent/state.py`, spec §4.2)

`AgentState` declares the `iteration` counter (an `int`) and `Settings`
supplies `max_iterations`, but the controller graph itself (the LangGraph
nodes driving the reflexion loop) is not part of the sources under
verification.  The finite-state machine below is therefore modelled from
the spec: states `INIT → SEARCHING → ANALYZING → (NEGOTIATING ⇄
REFLECTING)* → AWAITING_APPROVAL? → FINALIZING → DONE` plus a `FAILED`
terminal reachable from any state; `iteration` is incremented by exactly 1
on `NEGOTIATING → REFLECTING` and the loop re-enters `NEGOTIATING` only
while `iteration < max_iterations`. -/

/-- Modelled from the spec: the workflow phases of the reflexion
controller's finite state machine (§4.2). -/
inductive Phase where
  | init
  | searching
  | analyzing
  | negotiating
  | reflecting
  | awaitingApproval
  | finalizing
  | done
  | failed
deriving Repr, DecidableEq

/-- Modelled from the spec: the observable workflow state — the current
phase together with the `iteration` counter of `AgentState` (a Python
`int`, hence `ℤ`). -/
structure WState where
  phase : Phase
  iteration : ℤ
deriving Repr, DecidableEq

/-- Modelled from the spec: the transition relation of §4.2.  Critique
outcomes and routing decisions are nondeterministic; `iteration` changes
only on `NEGOTIATING → REFLECTING`, by exactly 1; `REFLECTING →
NEGOTIATING` requires `iteration < max_iterations`; any state may fail,
keeping the counter. -/
inductive WTrans (cfg : Settings) : WState → WState → Prop where
  | route (i : ℤ) : WTrans cfg ⟨.init, i⟩ ⟨.searching, i⟩
  | search (i : ℤ) : WTrans cfg ⟨.searching, i⟩ ⟨.analyzing, i⟩
  | toNegotiation (i : ℤ) : WTrans cfg ⟨.analyzing, i⟩ ⟨.negotiating, i⟩
  | directFinalize (i : ℤ) : WTrans cfg ⟨.analyzing, i⟩ ⟨.finalizing, i⟩
  | reflect (i : ℤ) : WTrans cfg ⟨.negotiating, i⟩ ⟨.reflecting, i + 1⟩
  | loop (i : ℤ) (hlt : i < cfg.max_iterations) :
      WTrans cfg ⟨.reflecting, i⟩ ⟨.negotiating, i⟩
  | reflectionDone (i : ℤ) : WTrans cfg ⟨.reflecting, i⟩ ⟨.finalizing, i⟩
  | suspend (i : ℤ) : WTrans cfg ⟨.finalizing, i⟩ ⟨.awaitingApproval, i⟩
  | approve (i : ℤ) : WTrans cfg ⟨.awaitingApproval, i⟩ ⟨.finalizing, i⟩
  | finish (i : ℤ) : WTrans cfg ⟨.finalizing, i⟩ ⟨.done, i⟩
  | fail (s : WState) : WTrans cfg s ⟨.failed, s.iteration⟩

/-- Modelled from the spec: a conversation starts at `INIT` with
`iteration = 0` (§3 lifecycle), and any observed state is reached by
finitely many transitions. -/
inductive WReachable (cfg : Settings) : WState → Prop where
  | start : WReachable cfg ⟨.init, 0⟩
  | step {s s' : WState} : WReachable cfg s → WTrans cfg s s' →
      WReachable cfg s'

/-- The inductive invariant of the reflexion loop: the counter stays in
`[0, max_iterations]`, is still 0 before the loop is entered, and is
strictly below the cap while in `NEGOTIATING` (so the increment on the next
reflexion step cannot overshoot). -/
def wInv (cfg : Settings) (s : WState) : Prop :=
  0 ≤ s.iteration ∧ s.iteration ≤ cfg.max_iterations ∧
  ((s.phase = .init ∨ s.phase = .searching ∨ s.phase = .analyzing) →
    s.iteration = 0) ∧
  (s.phase = .negotiating → s.iteration < cfg.max_iterations)

theorem wInv_step (cfg : Settings) (hmax : 1 ≤ cfg.max_iterations)
    {s s' : WState} (ht : WTrans cfg s s') (hs : wInv cfg s) :
    wInv cfg s' := by
  obtain ⟨h0, hle, hpre, hneg⟩ := hs
  cases ht <;> simp_all [wInv] <;> omega

theorem wInv_reachable (cfg : Settings) (hmax : 1 ≤ cfg.max_iterations)
    {s : WState} (hs : WReachable cfg s) : wInv cfg s := by
  induction hs with
  | start => simp [wInv]; omega
  | step hr ht ih => exact wInv_step cfg hmax ht ih

/-- **C2** (confirmed, spec-modelled): at every reachable workflow state,
`0 ≤ iteration ≤ max_iterations`, for any configuration whose
`max_iterations` is at least 1 (the `config.py` default is 3). -/
theorem iteration_within_bounds (cfg : Settings) (s : WState)
    (hmax : 1 ≤ cfg.max_iterations) (hs : WReachable cfg s) :
    0 ≤ s.iteration ∧ s.iteration ≤ cfg.max_iterations := by
  have h := wInv_reachable cfg hmax hs
  exact ⟨h.1, h.2.1⟩

/-- Witness for `iteration_within_bounds`: with the `config.py` default
settings (`max_iterations = 3`), a state that has gone once around the
reflexion loop satisfies the bounds. -/
theorem iteration_within_bounds_witness :
    (1 : ℤ) ≤ ({ groq_api_key := "k", serp_api_key := "k" } : Settings).max_iterations ∧
    WReachable { groq_api_key := "k", serp_api_key := "k" } ⟨.reflecting, 1⟩ ∧
    (0 ≤ (1 : ℤ) ∧ (1 : ℤ) ≤ ({ groq_api_key := "k", serp_api_key := "k" } : Settings).max_iterations) := by
  have hreach : WReachable { groq_api_key := "k", serp_api_key := "k" } ⟨.reflecting, 1⟩ :=
    .step (.step (.step (.step .start (.route 0)) (.search 0)) (.toNegotiation 0))
      (.reflect 0)
  exact ⟨by norm_num, hreach,
    iteration_within_bounds _ ⟨.reflecting, 1⟩ (by norm_num) hreach⟩


/-!
## `search_reviews` (tools.py lines 198–233) and `get_tavily_tool`
-/

/-- `search_reviews(place_name, city)`: `get_tavily_tool()` returns `None`
when `settings.tavily_api_key` is falsy, giving the fallback record; with a
configured key the Tavily invocation either produces `results` or raises,
and the `except` branch returns `{"source": "error", "error": str(e)}`.
`tavilyOutcome` is the outcome of constructing and invoking the tool. -/
def searchReviews (cfg : Settings) (place_name city : String)
    (tavilyOutcome : PyOutcome PyVal) : PyVal :=
  if cfg.tavily_api_key == "" then
    .vdict [("source", .vstr "fallback"),
            ("message", .vstr "Tavily API not configured, using basic analysis")]
  else
    match tavilyOutcome with
    | .ok results =>
      .vdict [("source", .vstr "tavily"),
              ("place_name", .vstr place_name),
              ("results", results),
              ("summary", .vstr "Review data fetched successfully")]
    | .exn e =>
      .vdict [("source", .vstr "error"), ("error", .vstr e)]

/-- How many of the given keys a value carries. -/
def countKeys (v : PyVal) (ks : List String) : Nat :=
  (ks.filter (pyValHasKey v)).length

/-- **C8** (confirmed): every `search_reviews` result is a dict with a
`source` field and exactly one of `results`, `message` or `error`, and the
cases correspond as the claim states: the `message` fallback record
exactly when the Tavily key is not configured, the `results` record
exactly when the configured call succeeds, and the `error` record exactly
when the configured call raises. -/
theorem search_reviews_source_and_one_of (cfg : Settings)
    (place_name city : String) (tavilyOutcome : PyOutcome PyVal) :
    pyValHasKey (searchReviews cfg place_name city tavilyOutcome) "source" = true ∧
    countKeys (searchReviews cfg place_name city tavilyOutcome)
      ["results", "message", "error"] = 1 ∧
    (cfg.tavily_api_key = "" →
      searchReviews cfg place_name city tavilyOutcome
        = .vdict [("source", .vstr "fallback"),
                  ("message",
                   .vstr "Tavily API not configured, using basic analysis")]) ∧
    (∀ results, cfg.tavily_api_key ≠ "" → tavilyOutcome = .ok results →
      searchReviews cfg place_name city tavilyOutcome
        = .vdict [("source", .vstr "tavily"),
                  ("place_name", .vstr place_name),
                  ("results", results),
                  ("summary", .vstr "Review data fetched successfully")]) ∧
    (∀ e, cfg.tavily_api_key ≠ "" → tavilyOutcome = .exn e →
      searchReviews cfg place_name city tavilyOutcome
        = .vdict [("source", .vstr "error"), ("error", .vstr e)]) := by
  by_cases hk : cfg.tavily_api_key = ""
  · refine ⟨?_, ?_, fun _ => ?_,
      fun results hne _ => absurd hk hne, fun e hne _ => absurd hk hne⟩
    all_goals simp [searchReviews, beq_iff_eq, hk, countKeys, pyValHasKey,
      pyHasKey, pyDictGet]
  · cases tavilyOutcome with
    | ok results =>
      refine ⟨?_, ?_, fun h => absurd h hk, ?_, ?_⟩
      · simp [searchReviews, beq_iff_eq, hk, pyValHasKey, pyHasKey, pyDictGet]
      · simp [searchReviews, beq_iff_eq, hk, countKeys, pyValHasKey, pyHasKey,
          pyDictGet]
      · intro r hne heq
        cases heq
        simp [searchReviews, beq_iff_eq, hk]
      · intro e hne heq
        cases heq
    | exn e =>
      refine ⟨?_, ?_, fun h => absurd h hk, ?_, ?_⟩
      · simp [searchReviews, beq_iff_eq, hk, pyValHasKey, pyHasKey, pyDictGet]
      · simp [searchReviews, beq_iff_eq, hk, countKeys, pyValHasKey, pyHasKey,
          pyDictGet]
      · intro r hne heq
        cases heq
      · intro e2 hne heq
        cases heq
        simp [searchReviews, beq_iff_eq, hk]

/-- Witness for `search_reviews_source_and_one_of`: the three cases at
concrete inputs — no key configured gives the `message` fallback, a
configured successful call gives the `results` record, and a configured
raised call gives the `error` record. -/
theorem search_reviews_source_and_one_of_witness :
    searchReviews { groq_api_key := "g", serp_api_key := "s" } "A" "Pune"
        (.ok (.vlist []))
      = .vdict [("source", .vstr "fallback"),
                ("message",
                 .vstr "Tavily API not configured, using basic analysis")] ∧
    searchReviews
        { groq_api_key := "g", serp_api_key := "s", tavily_api_key := "t" }
        "A" "Pune" (.ok (.vlist []))
      = .vdict [("source", .vstr "tavily"), ("place_name", .vstr "A"),
                ("results", .vlist []),
                ("summary", .vstr "Review data fetched successfully")] ∧
    searchReviews
        { groq_api_key := "g", serp_api_key := "s", tavily_api_key := "t" }
        "A" "Pune" (.exn "boom")
      = .vdict [("source", .vstr "error"), ("error", .vstr "boom")] :=
  ⟨(search_reviews_source_and_one_of
      { groq_api_key := "g", serp_api_key := "s" } "A" "Pune"
      (.ok (.vlist []))).2.2.1 rfl,
   (search_reviews_source_and_one_of
      { groq_api_key := "g", serp_api_key := "s", tavily_api_key := "t" }
      "A" "Pune" (.ok (.vlist []))).2.2.2.1 (.vlist []) (by decide) rfl,
   (search_reviews_source_and_one_of
      { groq_api_key := "g", serp_api_key := "s", tavily_api_key := "t" }
      "A" "Pune" (.exn "boom")).2.2.2.2 "boom" (by decide) rfl⟩

/-!
## `contact_shop_simulation` (tools.py lines 240–306)
-/

/-- JSON string escaping for one character (the cases `json.dumps` needs on
the strings at hand). -/
def jsonEscapeChar (c : Char) : String :=
  if c = '\\' then "\\\\" else if c = '"' then "\\\"" else String.singleton c

/-- JSON string escaping. -/
def jsonEscape (s : String) : String :=
  String.join (s.toList.map jsonEscapeChar)

mutual

/-- `json.dumps` on a Python value (default separators). -/
def jsonDumps : PyVal → String
  | .vstr s => "\"" ++ jsonEscape s ++ "\""
  | .vnum q => toString q
  | .vbool b => if b then "true" else "false"
  | .vnone => "null"
  | .vlist l => "[" ++ jsonDumpsItems l ++ "]"
  | .vdict d => "\x7b" ++ jsonDumpsFields d ++ "\x7d"

/-- `json.dumps` of list items, comma-separated. -/
def jsonDumpsItems : List PyVal → String
  | [] => ""
  | [v] => jsonDumps v
  | v :: rest => jsonDumps v ++ ", " ++ jsonDumpsItems rest

/-- `json.dumps` of dict fields, comma-separated. -/
def jsonDumpsFields : List (String × PyVal) → String
  | [] => ""
  | [(k, v)] => "\"" ++ jsonEscape k ++ "\": " ++ jsonDumps v
  | (k, v) :: rest =>
      "\"" ++ jsonEscape k ++ "\": " ++ jsonDumps v ++ ", " ++ jsonDumpsFields rest

end

/-- The canned fallback record built in the `except` branch of
`contact_shop_simulation`. -/
def contactShopFallback (question_type : String) : PyDict :=
  [("response_type", .vstr question_type),
   ("message", .vstr ("We'd be happy to help! Please call us for details about "
      ++ question_type ++ ".")),
   ("available", .vbool true)]

/-- `contact_shop_simulation(place_name, place_type, question_type,
user_budget)`: returns the provider's text on success and
`json.dumps(fallback)` when the provider call raises.  (In the deployed
code the `try` block reads `settings.google_api_key`, a field `Settings`
does not define, so the call always raises and the fallback is always
taken.) -/
def contactShopSimulation (cfg : Settings)
    (place_name place_type question_type : String) (user_budget : Option ℚ)
    (llmOutcome : PyOutcome String) : String :=
  match llmOutcome with
  | .ok content => content
  | .exn _ => jsonDumps (.vdict (contactShopFallback question_type))

/-- **C4** (confirmed): when the completion provider raises,
`contact_shop_simulation` returns the JSON serialization of a record whose
`response_type` equals the `question_type` argument, whose `message` is a
non-empty string, and whose `available` field is `True`. -/
theorem contact_shop_fallback_shape (cfg : Settings)
    (place_name place_type question_type : String) (user_budget : Option ℚ)
    (e : String) :
    contactShopSimulation cfg place_name place_type question_type user_budget
        (.exn e)
      = jsonDumps (.vdict (contactShopFallback question_type)) ∧
    pyDictGet (contactShopFallback question_type) "response_type"
      = some (.vstr question_type) ∧
    (∃ m, pyDictGet (contactShopFallback question_type) "message"
        = some (.vstr m) ∧ m ≠ "") ∧
    pyDictGet (contactShopFallback question_type) "available"
      = some (.vbool true) := by
  refine ⟨rfl, rfl, ⟨_, rfl, ?_⟩, rfl⟩
  intro hcontra
  have h2 := congrArg String.length hcontra
  simp [String.length_append] at h2
  exact absurd h2.1.1 (by decide)


/-!
## `fetch_reviews_webscraping_ai` (tools.py lines 370–462)

The HTTP request is an explicit outcome (`requests.get` may raise, or
return a response with a status code and body); the Groq completion is a
second outcome.  BeautifulSoup text extraction and the prompt build only
feed the completion provider, which the `llmOutcome` parameter abstracts.
`json.loads` enters as an oracle `parseJson` (`none` models
`JSONDecodeError`). -/

/-- Outcome of the WebScraping.AI HTTP request. -/
inductive HttpOutcome where
  | exn (e : String)
  | resp (status : ℤ) (body : String)
deriving Repr

/-- Python list slicing `l[:n]` for an arbitrary integer `n` (a negative
`n` keeps `len(l) + n` elements, clamped at zero). -/
def pySlice (l : List PyVal) (n : ℤ) : List PyVal :=
  if 0 ≤ n then l.take n.toNat else l.take (l.length - n.natAbs)

/-- The markdown cleanup applied to `response.content.strip()`:
`content.replace("```json", "").replace("```", "")` when it starts with
"```json", `content.replace("```", "")` when it starts with "```". -/
def cleanContent (raw : String) : String :=
  if raw.trim.startsWith "```json" then
    (raw.trim.replace "```json" "").replace "```" ""
  else if raw.trim.startsWith "```" then
    raw.trim.replace "```" ""
  else raw.trim

/-- `fetch_reviews_webscraping_ai(query, limit)`: the missing-key guard
returns a one-element error list before the `try`; a raised request, a
non-200 status, and a raised completion each return a one-element error
list; parsed JSON lists are cut to `limit` by slicing; non-list JSON and
unparseable output give one-element lists.  (`str(reviews)` is rendered by
`jsonDumps`; only the element count matters to the properties proved
here.) -/
def fetchReviews (parseJson : String → Option PyVal) (cfg : Settings)
    (query : String) (limit : ℤ) (httpOutcome : HttpOutcome)
    (llmOutcome : PyOutcome String) : List PyVal :=
  if cfg.webscraping_ai_api_key == "" then
    [.vstr "Error: WebScraping.AI API Key not configured."]
  else
    match httpOutcome with
    | .exn e => [.vstr ("Error: " ++ e)]
    | .resp status _body =>
      if status ≠ 200 then [.vstr ("Error fetching page: " ++ toString status)]
      else
        match llmOutcome with
        | .exn e => [.vstr ("Error: " ++ e)]
        | .ok raw =>
          match parseJson (cleanContent raw) with
          | some (.vlist reviews) => pySlice reviews limit
          | some v => [.vstr (jsonDumps v)]
          | none => [.vstr (cleanContent raw)]

/-- **C6** (amended): for a non-negative `limit`, the list returned by
`fetch_reviews_webscraping_ai` has length at most `max limit 1`: the
successful-parse path is bounded by `limit` via slicing, while every other
path (missing key, request exception, non-200 status, completion
exception, non-list JSON, unparseable output) returns exactly one
string — which exceeds a `limit` of 0. -/
theorem fetch_reviews_bounded (parseJson : String → Option PyVal)
    (cfg : Settings) (query : String) (limit : ℤ)
    (httpOutcome : HttpOutcome) (llmOutcome : PyOutcome String)
    (h : 0 ≤ limit) :
    (fetchReviews parseJson cfg query limit httpOutcome llmOutcome).length
      ≤ max limit.toNat 1 := by
  unfold fetchReviews
  repeat' split
  all_goals simp [pySlice, h, List.length_take]

/-- Witness for `fetch_reviews_bounded`: with `limit = 3` and no API key
configured the single error string respects the bound. -/
theorem fetch_reviews_bounded_witness :
    (0 : ℤ) ≤ 3 ∧
    (fetchReviews (fun _ => none) { groq_api_key := "g", serp_api_key := "s" }
        "q" 3 (.exn "boom") (.exn "x")).length ≤ max (3 : ℤ).toNat 1 :=
  ⟨by decide, fetch_reviews_bounded (fun _ => none)
    { groq_api_key := "g", serp_api_key := "s" } "q" 3 (.exn "boom") (.exn "x")
    (by decide)⟩

/-- Counterexample to C6 as stated: with `limit = 0` the missing-API-key
path returns a one-element list, which is longer than `limit`. -/
theorem fetch_reviews_bounded_cex :
    fetchReviews (fun _ => none) { groq_api_key := "g", serp_api_key := "s" }
        "q" 0 (.exn "boom") (.exn "x")
      = [.vstr "Error: WebScraping.AI API Key not configured."] ∧
    ¬ ((fetchReviews (fun _ => none) { groq_api_key := "g", serp_api_key := "s" }
        "q" 0 (.exn "boom") (.exn "x")).length ≤ (0 : ℤ).toNat) := by
  refine ⟨rfl, ?_⟩
  simp [fetchReviews]

/-- **C7** (amended): the tool adapters read the module-level `settings`
singleton, so their results depend on the ambient configuration and not
only on their declared arguments: the same call to
`fetch_reviews_webscraping_ai` (identical `query`, `limit` and external
outcomes) returns an error list when `webscraping_ai_api_key` is unset and
the sliced review list when it is set, and the same call to
`search_reviews` returns the fallback record when `tavily_api_key` is
unset and the Tavily record when it is set. -/
theorem tools_read_ambient_settings :
    fetchReviews (fun _ => some (.vlist []))
        { groq_api_key := "g", serp_api_key := "s" } "q" 3 (.resp 200 "") (.ok "[]")
      = [.vstr "Error: WebScraping.AI API Key not configured."] ∧
    fetchReviews (fun _ => some (.vlist []))
        { groq_api_key := "g", serp_api_key := "s", webscraping_ai_api_key := "k" }
        "q" 3 (.resp 200 "") (.ok "[]")
      = [] ∧
    searchReviews { groq_api_key := "g", serp_api_key := "s" } "A" "Pune"
        (.ok (.vlist []))
      = .vdict [("source", .vstr "fallback"),
                ("message", .vstr "Tavily API not configured, using basic analysis")] ∧
    searchReviews { groq_api_key := "g", serp_api_key := "s", tavily_api_key := "t" }
        "A" "Pune" (.ok (.vlist []))
      = .vdict [("source", .vstr "tavily"), ("place_name", .vstr "A"),
                ("results", .vlist []),
                ("summary", .vstr "Review data fetched successfully")] :=
  ⟨rfl, rfl, rfl, rfl⟩

/-- Counterexample to C7 as stated: it is not the case that two runs of a
tool with identical declared arguments and identical external outcomes
agree regardless of the ambient settings — changing only
`webscraping_ai_api_key` in the ambient settings changes the result of
`fetch_reviews_webscraping_ai`. -/
theorem tools_read_ambient_settings_cex :
    ¬ ∀ (cfg1 cfg2 : Settings) (parseJson : String → Option PyVal)
        (query : String) (limit : ℤ) (httpOutcome : HttpOutcome)
        (llmOutcome : PyOutcome String),
        fetchReviews parseJson cfg1 query limit httpOutcome llmOutcome
          = fetchReviews parseJson cfg2 query limit httpOutcome llmOutcome := by
  intro hall
  have h1 := hall { groq_api_key := "g", serp_api_key := "s" }
    { groq_api_key := "g", serp_api_key := "s", webscraping_ai_api_key := "k" }
    (fun _ => some (.vlist [])) "q" 3 (.resp 200 "") (.ok "[]")
  have e1 : fetchReviews (fun _ => some (.vlist []))
      { groq_api_key := "g", serp_api_key := "s" } "q" 3 (.resp 200 "") (.ok "[]")
      = [.vstr "Error: WebScraping.AI API Key not configured."] := rfl
  have e2 : fetchReviews (fun _ => some (.vlist []))
      { groq_api_key := "g", serp_api_key := "s", webscraping_ai_api_key := "k" }
      "q" 3 (.resp 200 "") (.ok "[]") = [] := rfl
  rw [e1, e2] at h1
  exact absurd h1 (by simp)


/-!
## `search_places` (tools.py lines 20–175)

The HTTP call (`requests.get` + `raise_for_status` + `.json()`) enters as a
`PyOutcome PyDict`; the text-parsing regexes of `extract_phone`, the
rating/review pattern and the address pattern enter as oracles
(`phoneRegex`, `ratingRegex`, `addrRegex`) — the spec declares these
data-extraction heuristics a non-goal, and only the values they produce
flow into the records, never the record shapes.  Iterating a non-list or
calling `.get`/`.lower()` on an ill-typed value is modelled as raising,
which the enclosing `try` turns into the error record, as in the source. -/

/-- `extract_phone(text)` (tools.py lines 67–73) applied to an arbitrary
value: falsy input gives `""`; `re.search` on a truthy non-string raises a
`TypeError`; on a string the phone regex (the oracle) decides. -/
def extract_phone (phoneRegex : String → String) (v : PyVal) :
    Except String String :=
  if !pyTruthy v then .ok ""
  else
    match v with
    | .vstr s => .ok (phoneRegex s)
    | _ => .error "TypeError: expected string or bytes-like object"

/-- A value a string method or regex is applied to: non-strings raise. -/
def asStr (v : PyVal) : Except String String :=
  match v with
  | .vstr s => .ok s
  | _ => .error "TypeError: expected str"

/-- A value that is iterated like a list: anything else is modelled as
raising (in CPython iterating a non-list either raises at once or feeds
non-dict elements into `.get`, which raises; both end in the same error
record). -/
def asList (v : PyVal) : Except String (List PyVal) :=
  match v with
  | .vlist l => .ok l
  | _ => .error "TypeError: not iterable as expected"

/-- Python dict assignment `m[k] = phone` on the `phone_mapping`. -/
def updMap (m : List (String × String)) (k v : String) :
    List (String × String) :=
  if m.any (fun kv => kv.1 == k) then
    m.map (fun kv => if kv.1 == k then (k, v) else kv)
  else m ++ [(k, v)]

/-- `phone_mapping.get(k, d)`. -/
def mapGetD (m : List (String × String)) (k d : String) : String :=
  ((m.find? (fun kv => kv.1 == k)).map (fun kv => kv.2)).getD d

/-- One `related_places` item of the phone-mapping pass (tools.py lines
79–86): extract a phone from the `places` text and, when non-empty, key it
by the lowercased, stripped `title`. -/
def phoneMapStep (phoneRegex : String → String) (m : List (String × String))
    (obj : PyVal) : Except String (List (String × String)) :=
  match obj with
  | .vdict o =>
    match extract_phone phoneRegex (pyGetD o "places" (.vstr "")) with
    | .error e => .error e
    | .ok phone =>
      if phone == "" then .ok m
      else
        match asStr (pyGetD o "title" (.vstr "")) with
        | .error e => .error e
        | .ok t => .ok (updMap m (t.toLower.trim) phone)
  | _ => .error "AttributeError: get"

/-- The `for place_obj in data["related_places"]` phone-mapping loop. -/
def buildPhoneMapping (phoneRegex : String → String) :
    List (String × String) → List PyVal → Except String (List (String × String))
  | m, [] => .ok m
  | m, obj :: rest =>
    match phoneMapStep phoneRegex m obj with
    | .ok m2 => buildPhoneMapping phoneRegex m2 rest
    | .error e => .error e

/-- One `local_results` item (tools.py lines 91–118): title (a string,
since `.lower()` is called on it), phone from the mapping with two
`extract_phone` fallbacks, then the record literal with keys `name`,
`address`, `phone`, `rating`, `reviews_count`, `price_level`, `type`,
`extensions`. -/
def processLocal (phoneRegex : String → String)
    (mapping : List (String × String)) (place_type : String) (v : PyVal) :
    Except String PyVal :=
  match v with
  | .vdict p =>
    match asStr (pyGetD p "title" (.vstr "Unknown")) with
    | .error e => .error e
    | .ok nameS =>
      match (if mapGetD mapping (nameS.toLower.trim) "" == "" then
               extract_phone phoneRegex (pyGetD p "type" (.vstr ""))
             else .ok (mapGetD mapping (nameS.toLower.trim) "")) with
      | .error e => .error e
      | .ok phone1 =>
        match (if phone1 == "" then
                 extract_phone phoneRegex (pyGetD p "address" (.vstr ""))
               else .ok phone1) with
        | .error e => .error e
        | .ok phone2 =>
          .ok (.vdict [("name", .vstr nameS),
                       ("address", pyGetD p "address" (.vstr "")),
                       ("phone", .vstr phone2),
                       ("rating", pyGetD p "rating" .vnone),
                       ("reviews_count", pyGetD p "reviews" (.vnum 0)),
                       ("price_level", pyGetD p "price" (.vdict [])),
                       ("type", .vstr place_type),
                       ("extensions", pyGetD p "extensions" (.vdict []))])
  | _ => .error "AttributeError: get"

/-- One `related_places` display item (tools.py lines 122–144): phone,
rating/review-count and address all come from regexes over the `places`
text (so that text must be a string), and the record literal has keys
`name`, `address`, `phone`, `rating`, `reviews_count`, `price_level`,
`type`, `extensions`. -/
def processRelated (phoneRegex : String → String)
    (ratingRegex : String → Option (ℚ × ℤ))
    (addrRegex : String → Option String) (place_type : String) (v : PyVal) :
    Except String PyVal :=
  match v with
  | .vdict o =>
    match extract_phone phoneRegex (pyGetD o "places" (.vstr "")) with
    | .error e => .error e
    | .ok phone =>
      match asStr (pyGetD o "places" (.vstr "")) with
      | .error e => .error e
      | .ok s =>
        .ok (.vdict [("name", pyGetD o "title" (.vstr "Unknown")),
                     ("address", .vstr (((addrRegex s).map String.trim).getD "")),
                     ("phone", .vstr phone),
                     ("rating", match ratingRegex s with
                                | some rv => .vnum rv.1
                                | none => .vnone),
                     ("reviews_count", match ratingRegex s with
                                       | some rv => .vnum (rv.2 : ℚ)
                                       | none => .vnum 0),
                     ("price_level", .vdict []),
                     ("type", .vstr place_type),
                     ("extensions", .vdict [])])
  | _ => .error "AttributeError: get"

/-- `result.get("snippet", "")[:100]`: slicing works on strings and lists,
raises otherwise. -/
def pySnippetSlice (v : PyVal) : Except String PyVal :=
  match v with
  | .vstr s => .ok (.vstr (s.take 100))
  | .vlist l => .ok (.vlist (l.take 100))
  | _ => .error "TypeError: object is not subscriptable"

/-- The `for idx, result in enumerate(data["organic_results"][:10], 1)`
loop (tools.py lines 148–160): records with keys `name`, `address`,
`phone`, `rating`, `reviews_count`, `price_level`, `type`, `url`,
`position`, `extensions`. -/
def processOrganic (place_type : String) :
    ℤ → List PyVal → Except String (List PyVal)
  | _, [] => .ok []
  | idx, v :: rest =>
    match v with
    | .vdict r =>
      match pySnippetSlice (pyGetD r "snippet" (.vstr "")) with
      | .error e => .error e
      | .ok addr =>
        match processOrganic place_type (idx + 1) rest with
        | .error e => .error e
        | .ok rs =>
          .ok (.vdict [("name", pyGetD r "title" (.vstr "Unknown")),
                       ("address", addr),
                       ("phone", .vstr ""),
                       ("rating", .vnone),
                       ("reviews_count", .vnum 0),
                       ("price_level", .vdict []),
                       ("type", .vstr place_type),
                       ("url", pyGetD r "url" (.vstr "")),
                       ("position", .vnum (idx : ℚ)),
                       ("extensions", .vdict [])] :: rs)
    | _ => .error "AttributeError: get"

/-- Sequencing a per-item parse over a list, stopping at the first raise. -/
def mapE (f : PyVal → Except String PyVal) :
    List PyVal → Except String (List PyVal)
  | [] => .ok []
  | v :: rest =>
    match f v with
    | .error e => .error e
    | .ok r =>
      match mapE f rest with
      | .error e => .error e
      | .ok rs => .ok (r :: rs)

/-- `data.get("request", {}).get("success", True)` as a truthiness test. -/
def serpSuccess (data : PyDict) : Except String Bool :=
  match pyGetD data "request" (.vdict []) with
  | .vdict r => .ok (pyTruthy (pyGetD r "success" (.vbool true)))
  | _ => .error "AttributeError: get"

/-- `data.get("error", {}).get("info", "Unknown error")`. -/
def serpErrorInfo (data : PyDict) : Except String PyVal :=
  match pyGetD data "error" (.vdict []) with
  | .vdict r => .ok (pyGetD r "info" (.vstr "Unknown error"))
  | _ => .error "AttributeError: get"

/-- Rough `str()` rendering, used only inside error-message strings whose
exact text is irrelevant to the properties proved. -/
def pyStr : PyVal → String
  | .vstr s => s
  | v => jsonDumps v

/-- The search query: the `query` argument when truthy, otherwise
`f"{place_type} in {city}"`. -/
def searchQueryOf (city place_type : String) (query : Option String) : String :=
  match query with
  | some q => if q == "" then place_type ++ " in " ++ city else q
  | none => place_type ++ " in " ++ city

/-- The placeholder returned when no results were parsed (tools.py lines
163–168): a record with only `name`, `address` and `type`. -/
def noResultsRecord (search_query place_type : String) : PyVal :=
  .vdict [("name", .vstr "No results found"),
          ("address", .vstr ("Try searching for \x27" ++ search_query
             ++ "\x27 manually")),
          ("type", .vstr place_type)]

/-- The first two priorities of the parse cascade of `search_places`:
`local_results` when that key exists (tools.py line 89), else
`related_places` (line 121), else nothing. -/
def searchPlacesStage1 (phoneRegex : String → String)
    (ratingRegex : String → Option (ℚ × ℤ))
    (addrRegex : String → Option String) (place_type : String)
    (mapping : List (String × String)) (data : PyDict) :
    Except String (List PyVal) :=
  if pyHasKey data "local_results" then
    match asList (pyGetD data "local_results" .vnone) with
    | .error e => .error e
    | .ok l => mapE (processLocal phoneRegex mapping place_type) (l.take 10)
  else if pyHasKey data "related_places" then
    match asList (pyGetD data "related_places" .vnone) with
    | .error e => .error e
    | .ok l =>
      mapE (processRelated phoneRegex ratingRegex addrRegex place_type)
        (l.take 10)
  else .ok []

/-- The full parse cascade: the first two priorities, then
`organic_results` as a last resort when nothing was parsed and that key
exists (tools.py line 147). -/
def searchPlacesParse (phoneRegex : String → String)
    (ratingRegex : String → Option (ℚ × ℤ))
    (addrRegex : String → Option String) (place_type : String)
    (mapping : List (String × String)) (data : PyDict) :
    Except String (List PyVal) :=
  match searchPlacesStage1 phoneRegex ratingRegex addrRegex place_type
      mapping data with
  | .error e => .error e
  | .ok results1 =>
    if results1.isEmpty && pyHasKey data "organic_results" then
      match asList (pyGetD data "organic_results" .vnone) with
      | .error e => .error e
      | .ok l => processOrganic place_type 1 (l.take 10)
    else .ok results1

/-- The body of the `try` block of `search_places`, given the parsed JSON
`data`: the API-error check, the phone-mapping pass over
`related_places`, the parse cascade, and the no-results placeholder. -/
def searchPlacesBody (phoneRegex : String → String)
    (ratingRegex : String → Option (ℚ × ℤ))
    (addrRegex : String → Option String)
    (place_type search_query : String) (data : PyDict) :
    Except String (List PyVal) :=
  match serpSuccess data with
  | .error e => .error e
  | .ok succ =>
    if !succ then
      match serpErrorInfo data with
      | .error e => .error e
      | .ok info =>
        .ok [.vdict [("error", .vstr ("SerpStack API error: " ++ pyStr info))]]
    else
      match (if pyHasKey data "related_places" then
               match asList (pyGetD data "related_places" .vnone) with
               | .error e => .error e
               | .ok l => buildPhoneMapping phoneRegex [] l
             else .ok [] : Except String (List (String × String))) with
      | .error e => .error e
      | .ok mapping =>
        match searchPlacesParse phoneRegex ratingRegex addrRegex place_type
            mapping data with
        | .error e => .error e
        | .ok results =>
          if results.isEmpty then
            .ok [noResultsRecord search_query place_type]
          else .ok results

/-- `search_places(city, place_type, query)` (tools.py lines 20–175): the
request outcome either raised (the `RequestException` branch) or produced
parsed JSON `data`; any exception inside the body lands in the generic
`except` branch.  Both produce a single `{"error": ...}` record. -/
def searchPlaces (phoneRegex : String → String)
    (ratingRegex : String → Option (ℚ × ℤ))
    (addrRegex : String → Option String) (cfg : Settings)
    (city place_type : String) (query : Option String)
    (httpOutcome : PyOutcome PyDict) : List PyVal :=
  match httpOutcome with
  | .exn e => [.vdict [("error", .vstr ("SerpStack API request error: " ++ e))]]
  | .ok data =>
    match searchPlacesBody phoneRegex ratingRegex addrRegex place_type
        (searchQueryOf city place_type query) data with
    | .error e => [.vdict [("error", .vstr ("SerpStack API error: " ++ e))]]
    | .ok results => results

/-- The seven fields C5 requires of every place record. -/
def hasSevenFields (v : PyVal) : Bool :=
  ["name", "address", "phone", "rating", "reviews_count",
   "price_level", "type"].all (pyValHasKey v)


theorem processLocal_hasSeven (phoneRegex : String → String)
    (mapping : List (String × String)) (place_type : String) (v : PyVal)
    (r : PyVal) (h : processLocal phoneRegex mapping place_type v = .ok r) :
    hasSevenFields r = true := by
  unfold processLocal at h
  repeat' split at h
  all_goals cases h
  all_goals rfl

theorem processRelated_hasSeven (phoneRegex : String → String)
    (ratingRegex : String → Option (ℚ × ℤ))
    (addrRegex : String → Option String) (place_type : String) (v : PyVal)
    (r : PyVal)
    (h : processRelated phoneRegex ratingRegex addrRegex place_type v = .ok r) :
    hasSevenFields r = true := by
  unfold processRelated at h
  repeat' split at h
  all_goals cases h
  all_goals rfl

theorem processOrganic_hasSeven (place_type : String) :
    ∀ (idx : ℤ) (l out : List PyVal),
      processOrganic place_type idx l = .ok out →
      ∀ r ∈ out, hasSevenFields r = true := by
  intro idx l
  induction l generalizing idx with
  | nil =>
    intro out h r hr
    cases h
    simp at hr
  | cons v rest ih =>
    intro out h r hr
    unfold processOrganic at h
    repeat' split at h
    all_goals cases h
    rename_i heq
    rcases List.mem_cons.mp hr with h3 | h3
    · subst h3; rfl
    · exact ih _ _ heq r h3

theorem mapE_all (f : PyVal → Except String PyVal)
    (hf : ∀ v r, f v = .ok r → hasSevenFields r = true) :
    ∀ (l out : List PyVal), mapE f l = .ok out →
      ∀ r ∈ out, hasSevenFields r = true := by
  intro l
  induction l with
  | nil =>
    intro out h r hr
    cases h
    simp at hr
  | cons v rest ih =>
    intro out h r hr
    unfold mapE at h
    cases hf1 : f v with
    | error e => rw [hf1] at h; cases h
    | ok r1 =>
      rw [hf1] at h
      cases h2 : mapE f rest with
      | error e => rw [h2] at h; cases h
      | ok rs =>
        rw [h2] at h
        cases h
        rcases List.mem_cons.mp hr with h3 | h3
        · subst h3; exact hf _ _ hf1
        · exact ih rs h2 r h3

theorem searchPlacesStage1_hasSeven (phoneRegex : String → String)
    (ratingRegex : String → Option (ℚ × ℤ))
    (addrRegex : String → Option String) (place_type : String)
    (mapping : List (String × String)) (data : PyDict) (out : List PyVal)
    (h : searchPlacesStage1 phoneRegex ratingRegex addrRegex place_type
           mapping data = .ok out) :
    ∀ r ∈ out, hasSevenFields r = true := by
  unfold searchPlacesStage1 at h
  split at h
  · split at h
    · cases h
    · exact mapE_all _ (fun v r hr => processLocal_hasSeven _ _ _ _ _ hr) _ out h
  · split at h
    · split at h
      · cases h
      · exact mapE_all _
          (fun v r hr => processRelated_hasSeven _ _ _ _ _ _ hr) _ out h
    · cases h
      intro r hr
      simp at hr

theorem searchPlacesParse_hasSeven (phoneRegex : String → String)
    (ratingRegex : String → Option (ℚ × ℤ))
    (addrRegex : String → Option String) (place_type : String)
    (mapping : List (String × String)) (data : PyDict) (out : List PyVal)
    (h : searchPlacesParse phoneRegex ratingRegex addrRegex place_type
           mapping data = .ok out) :
    ∀ r ∈ out, hasSevenFields r = true := by
  unfold searchPlacesParse at h
  split at h
  · cases h
  · rename_i results1 hstage
    split at h
    · split at h
      · cases h
      · exact processOrganic_hasSeven place_type 1 _ out h
    · cases h
      exact searchPlacesStage1_hasSeven phoneRegex ratingRegex addrRegex
        place_type mapping data out hstage


theorem searchPlacesBody_shape (phoneRegex : String → String)
    (ratingRegex : String → Option (ℚ × ℤ))
    (addrRegex : String → Option String)
    (place_type search_query : String) (data : PyDict) (out : List PyVal)
    (h : searchPlacesBody phoneRegex ratingRegex addrRegex place_type
           search_query data = .ok out) :
    (∃ e, out = [.vdict [("error", .vstr e)]]) ∨
    out = [noResultsRecord search_query place_type] ∨
    (∀ r ∈ out, hasSevenFields r = true) := by
  unfold searchPlacesBody at h
  split at h
  · cases h
  · split at h
    · split at h
      · cases h
      · cases h
        exact Or.inl ⟨_, rfl⟩
    · split at h
      · cases h
      · split at h
        · cases h
        · rename_i results hparse
          split at h
          · cases h
            exact Or.inr (Or.inl rfl)
          · cases h
            exact Or.inr (Or.inr (searchPlacesParse_hasSeven phoneRegex
              ratingRegex addrRegex place_type _ data out hparse))

/-- **C5** (amended): every record returned by `search_places` carries the
seven fields `name`, `address`, `phone`, `rating`, `reviews_count`,
`price_level`, `type`, except in two cases: a single error record (request
failure, body exception or SerpStack API error), or the single no-results
placeholder, which has only `name`, `address` and `type`. -/
theorem search_places_record_fields (phoneRegex : String → String)
    (ratingRegex : String → Option (ℚ × ℤ))
    (addrRegex : String → Option String) (cfg : Settings)
    (city place_type : String) (query : Option String)
    (httpOutcome : PyOutcome PyDict) :
    (∃ e, searchPlaces phoneRegex ratingRegex addrRegex cfg city place_type
        query httpOutcome = [.vdict [("error", .vstr e)]]) ∨
    searchPlaces phoneRegex ratingRegex addrRegex cfg city place_type query
        httpOutcome
      = [noResultsRecord (searchQueryOf city place_type query) place_type] ∨
    (∀ r ∈ searchPlaces phoneRegex ratingRegex addrRegex cfg city place_type
        query httpOutcome, hasSevenFields r = true) := by
  unfold searchPlaces
  split
  · exact Or.inl ⟨_, rfl⟩
  · split
    · exact Or.inl ⟨_, rfl⟩
    · rename_i heq
      exact searchPlacesBody_shape _ _ _ _ _ _ _ heq

/-- Counterexample to C5 as stated: a successful SerpStack response with no
parseable results makes `search_places` return the placeholder record,
which is not an error record yet carries only `name`, `address` and
`type` — `phone`, `rating`, `reviews_count` and `price_level` are
missing. -/
theorem search_places_record_fields_cex :
    searchPlaces (fun _ => "") (fun _ => none) (fun _ => none)
        { groq_api_key := "g", serp_api_key := "s" } "Pune" "gym" none
        (.ok [])
      = [noResultsRecord "gym in Pune" "gym"] ∧
    isErrorRecord (noResultsRecord "gym in Pune" "gym") = false ∧
    hasSevenFields (noResultsRecord "gym in Pune" "gym") = false :=
  ⟨rfl, rfl, rfl⟩


/-- **C3** (amended): every tool operation is a total function of its
inputs and outcomes (it returns a value on every path — the embedding is
total by construction), and on failure `search_places`, `search_reviews`
and `compare_prices` return a structured error record (a dict with an
`error` field), while `fetch_reviews_webscraping_ai` instead returns a
one-element list containing an error *string*, not a record. -/
theorem tool_error_records :
    (∀ (phoneRegex : String → String)
       (ratingRegex : String → Option (ℚ × ℤ))
       (addrRegex : String → Option String) (cfg : Settings)
       (city place_type : String) (query : Option String) (e : String),
       searchPlaces phoneRegex ratingRegex addrRegex cfg city place_type
           query (.exn e)
         = [.vdict [("error", .vstr ("SerpStack API request error: " ++ e))]]) ∧
    (∀ (phoneRegex : String → String)
       (ratingRegex : String → Option (ℚ × ℤ))
       (addrRegex : String → Option String) (cfg : Settings)
       (city place_type : String) (query : Option String) (data : PyDict)
       (e : String),
       searchPlacesBody phoneRegex ratingRegex addrRegex place_type
           (searchQueryOf city place_type query) data = .error e →
       searchPlaces phoneRegex ratingRegex addrRegex cfg city place_type
           query (.ok data)
         = [.vdict [("error", .vstr ("SerpStack API error: " ++ e))]]) ∧
    (∀ (cfg : Settings) (place_name city e : String),
       cfg.tavily_api_key ≠ "" →
       searchReviews cfg place_name city (.exn e)
         = .vdict [("source", .vstr "error"), ("error", .vstr e)]) ∧
    (∀ (places : List PyDict) (budget : Option ℚ) (e : String),
       comparePricesCore budget ⟨[], [], [], []⟩ places = .error e →
       comparePrices places budget = .vdict [("error", .vstr e)]) ∧
    (∀ (parseJson : String → Option PyVal) (cfg : Settings)
       (query : String) (limit : ℤ) (e : String)
       (llmOutcome : PyOutcome String),
       cfg.webscraping_ai_api_key ≠ "" →
       fetchReviews parseJson cfg query limit (.exn e) llmOutcome
         = [.vstr ("Error: " ++ e)] ∧
       ∀ v ∈ fetchReviews parseJson cfg query limit (.exn e) llmOutcome,
         isErrorRecord v = false) := by
  refine ⟨fun _ _ _ _ _ _ _ _ => rfl, ?_, ?_, ?_, ?_⟩
  · intro pr rr ar cfg city pt q data e h
    unfold searchPlaces
    simp only [h]
  · intro cfg pn city e hk
    unfold searchReviews
    simp [beq_iff_eq, hk]
  · intro places budget e h
    unfold comparePrices
    simp only [h]
  · intro pj cfg q l e llm hk
    constructor
    · unfold fetchReviews
      simp [beq_iff_eq, hk]
    · intro v hv
      unfold fetchReviews at hv
      simp [beq_iff_eq, hk] at hv
      subst hv
      rfl

/-- Witness for `tool_error_records`: each failure path evaluated at a
concrete input — a raised request in `search_places`, a body exception
(`data["request"]` not a dict), a raised Tavily call, a `KeyError` on a
classified place missing `name` in `compare_prices`, and a raised request
in `fetch_reviews`. -/
theorem tool_error_records_witness :
    searchPlaces (fun _ => "") (fun _ => none) (fun _ => none)
        { groq_api_key := "g", serp_api_key := "s" } "Pune" "gym" none
        (.exn "timeout")
      = [.vdict [("error", .vstr ("SerpStack API request error: " ++ "timeout"))]] ∧
    searchPlaces (fun _ => "") (fun _ => none) (fun _ => none)
        { groq_api_key := "g", serp_api_key := "s" } "Pune" "gym" none
        (.ok [("request", .vstr "x")])
      = [.vdict [("error", .vstr ("SerpStack API error: " ++ "AttributeError: get"))]] ∧
    searchReviews
        { groq_api_key := "g", serp_api_key := "s", tavily_api_key := "t" }
        "A" "Pune" (.exn "boom")
      = .vdict [("source", .vstr "error"), ("error", .vstr "boom")] ∧
    comparePrices [[("pricing_info", .vdict [("monthly", .vnum 100)])]]
        (some 50)
      = .vdict [("error", .vstr "KeyError: name")] ∧
    fetchReviews (fun _ => none)
        { groq_api_key := "g", serp_api_key := "s",
          webscraping_ai_api_key := "k" }
        "q" 3 (.exn "refused") (.exn "x")
      = [.vstr ("Error: " ++ "refused")] :=
  ⟨tool_error_records.1 _ _ _ _ _ _ _ _,
   tool_error_records.2.1 _ _ _ _ _ _ _ _ _ rfl,
   tool_error_records.2.2.1 _ _ _ _ (by simp),
   tool_error_records.2.2.2.1 _ _ _ rfl,
   (tool_error_records.2.2.2.2 _ _ _ _ _ _ (by simp)).1⟩

/-- Counterexample to C3 as stated: when the WebScraping.AI request raises,
`fetch_reviews_webscraping_ai` returns `["Error: connection refused"]` — a
list of strings in which no element is a record with an `error` field. -/
theorem tool_error_records_cex :
    fetchReviews (fun _ => none)
        { groq_api_key := "g", serp_api_key := "s",
          webscraping_ai_api_key := "k" } "q" 3 (.exn "connection refused")
        (.exn "x")
      = [.vstr "Error: connection refused"] ∧
    ∀ v ∈ [PyVal.vstr "Error: connection refused"], isErrorRecord v = false := by
  refine ⟨rfl, ?_⟩
  intro v hv
  simp at hv
  subst hv
  rfl

end PlaceDiscover
